import Mathlib

/-!
Verification of the iroAwase statistical color-transfer engine
(the Oklab / cube-root formulation, the most developed revision).

The engine's arithmetic is exact rational arithmetic except for three
numeric primitives: the precomputed sRGB-decode lookup table
(`TABLE_sRGBToLinear`), `Math.cbrt` (used once per channel in `rgb2oklab`),
`Math.sqrt` (used in `computeStats`) and `Math.pow(x, 1/2.4)` (used in
`linearToSRGB`).  Those primitives are modelled as explicit function
parameters (`tbl`, `cbrtQ`, `sq`, `pw`); every other step of the pipeline
is embedded literally over `ℚ`.  Theorems that need a numeric fact about a
primitive assume it as an explicit hypothesis that is true of the real
function (for example `pwSpec`, which says the gamma-encode power respects
the algebraic characterisation `x^5 ≤ r^12 → x^(5/12) ≤ r`).
-/

set_option maxHeartbeats 1000000

/-- One RGBA pixel: red, green, blue, alpha.  The source stores pixels in a
`Uint8ClampedArray` in RGBA order; we model a buffer as a list of integer
quadruples. -/
abbrev Px : Type := ℤ × ℤ × ℤ × ℤ

/-- Per-image colour statistics in the working space: per-channel mean and
standard deviation, as produced by `computeStats`. -/
structure ColorStats where
  mean : ℚ × ℚ × ℚ
  std : ℚ × ℚ × ℚ
deriving DecidableEq

/-- JavaScript `Math.round`: round half toward positive infinity. -/
def roundQ (x : ℚ) : ℤ := ⌊x + 1/2⌋

/-- `linearToSRGB` from the source: encode a linear-light value with the
two-segment sRGB transfer curve, scale to 8 bits, clamp to [0, 255] and
round.  `pw` stands for `Math.pow (· , 1/2.4)`. -/
def linearToSRGB (pw : ℚ → ℚ) (x : ℚ) : ℤ :=
  let val := if x ≤ 0.0031308 then x * 12.92 else 1.055 * pw x - 0.055
  roundQ (min 255 (max 0 (val * 255)))

/-- `rgb2oklab` from the source: table-decode each 8-bit channel to linear
light (`tbl` stands for `TABLE_sRGBToLinear`), map through the fixed
RGB→LMS matrix, apply the cube-root nonlinearity (`cbrtQ` stands for
`Math.cbrt`), and mix through the fixed LMS→Oklab matrix. -/
def rgb2oklab (tbl : ℤ → ℚ) (cbrtQ : ℚ → ℚ) (r g b : ℤ) : ℚ × ℚ × ℚ :=
  let rL := tbl r
  let gL := tbl g
  let bL := tbl b
  let l1 := 0.4122214708 * rL + 0.5363325363 * gL + 0.0514459929 * bL
  let m1 := 0.2119034982 * rL + 0.6806995451 * gL + 0.1073969566 * bL
  let s1 := 0.0883024619 * rL + 0.2817188376 * gL + 0.6299787005 * bL
  let l2 := cbrtQ l1
  let m2 := cbrtQ m1
  let s2 := cbrtQ s1
  (0.2104542553 * l2 + 0.7936177850 * m2 - 0.0040720468 * s2,
   1.9779984951 * l2 - 2.4285922050 * m2 + 0.4505937099 * s2,
   0.0259040371 * l2 + 0.7827717662 * m2 - 0.8086757660 * s2)

/-- `oklab2rgb` from the source: mix Oklab back to the cone space, cube each
channel, map through the fixed LMS→linear-RGB matrix, and gamma-encode each
channel with `linearToSRGB`. -/
def oklab2rgb (pw : ℚ → ℚ) (L a b : ℚ) : ℤ × ℤ × ℤ :=
  let l1 := L + 0.3963377774 * a + 0.2158037573 * b
  let m1 := L - 0.1055613458 * a - 0.0638541728 * b
  let s1 := L - 0.0894841775 * a - 1.2914855480 * b
  let l3 := l1 * l1 * l1
  let m3 := m1 * m1 * m1
  let s3 := s1 * s1 * s1
  let rL := 4.0767416621 * l3 - 3.3077115913 * m3 + 0.2309699292 * s3
  let gL := -1.2684380046 * l3 + 2.6097574011 * m3 - 0.3413193965 * s3
  let bL := -0.0041960863 * l3 - 0.7034186147 * m3 + 1.7076147010 * s3
  (linearToSRGB pw rL, linearToSRGB pw gL, linearToSRGB pw bL)

/-- Population mean of a list of channel values (`reduce((a,c)=>a+c,0)/n`). -/
def chanMean (xs : List ℚ) : ℚ := xs.sum / xs.length

/-- Population variance of a list of channel values
(`reduce((a,c)=>a+Math.pow(c-mean,2),0)/n`). -/
def chanVar (xs : List ℚ) : ℚ :=
  (xs.map (fun c => (c - chanMean xs) ^ 2)).sum / xs.length

/-- Shared statistics kernel: given the list of working-space triples that
survived sampling, return the sentinel `mean = [0,0,0], std = [1,1,1]` when
the list is empty, else per-channel mean and standard deviation
(`sq` stands for `Math.sqrt`). -/
def statsFromLabs (sq : ℚ → ℚ) (labs : List (ℚ × ℚ × ℚ)) : ColorStats :=
  let ls := labs.map (fun t => t.1)
  let la := labs.map (fun t => t.2.1)
  let lb := labs.map (fun t => t.2.2)
  if labs.length = 0 then ⟨(0, 0, 0), (1, 1, 1)⟩
  else ⟨(chanMean ls, chanMean la, chanMean lb),
        (sq (chanVar ls), sq (chanVar la), sq (chanVar lb))⟩

/-- Conversion of one stored pixel to the working space, as done inside the
statistics and processing loops (`rgb2lab(data[i], data[i+1], data[i+2])`). -/
def oklabOfPx (tbl : ℤ → ℚ) (cbrtQ : ℚ → ℚ) : Px → ℚ × ℚ × ℚ :=
  fun p => rgb2oklab tbl cbrtQ p.1 p.2.1 p.2.2.1

/-- `computeStats` from the Oklab revision: every pixel is converted and
sampled — the highlight filter (`r>250 && g>250 && b>250`) and shadow filter
(`r<5 && g<5 && b<5`) are commented out in this revision, so no pixel is
ever excluded. -/
def computeStats (tbl : ℤ → ℚ) (cbrtQ : ℚ → ℚ) (sq : ℚ → ℚ)
    (data : List Px) : ColorStats :=
  statsFromLabs sq (data.map (oklabOfPx tbl cbrtQ))

/-- Extreme-pixel test of the older revision's `computeStats`: all three
display channels within a few counts of 255 (clipped highlight) or of 0
(crushed shadow). -/
def isExtremePx (p : Px) : Bool :=
  (decide (250 < p.1) && decide (250 < p.2.1) && decide (250 < p.2.2.1)) ||
  (decide (p.1 < 5) && decide (p.2.1 < 5) && decide (p.2.2.1 < 5))

/-- `computeStats` from the older revision (`ColorTransfer.tsx`): the
extreme-pixel filter is hard-coded (always on), and the conversion to the
working space (the log-domain `rgb2lab` of that revision) is abstracted as
`lab`. -/
def computeStatsTsx (lab : Px → ℚ × ℚ × ℚ) (sq : ℚ → ℚ)
    (data : List Px) : ColorStats :=
  statsFromLabs sq ((data.filter (fun p => !isExtremePx p)).map lab)

/-- Modelled from the spec: the statistics extractor contract
`extract(image, exclude_extremes: bool)` of §4.2 — when the boolean is set,
pixels whose display channels are all within a few counts of 0 or 255 are
excluded; when it is clear the full population is used.  No function with
this parameter exists in either revision of the source; this definition is
the spec's contract, for comparison against the code. -/
def extractSpec (lab : Px → ℚ × ℚ × ℚ) (sq : ℚ → ℚ)
    (excludeExtremes : Bool) (data : List Px) : ColorStats :=
  statsFromLabs sq
    ((if excludeExtremes then data.filter (fun p => !isExtremePx p) else data).map lab)

/-- The calibrated per-channel affine coefficients plus the shadow-crush
floor, precomputed before the pixel loop of `processImageBuffer`. -/
structure Coeffs where
  AL : ℚ
  Aa : ℚ
  Ab : ℚ
  BL : ℚ
  Ba : ℚ
  Bb : ℚ
  cmf : ℚ
deriving DecidableEq

/-- `crushMinFactor` from the source: `Math.max(0, 1.0 - (shadowStrength/100.0) * 1.4)`. -/
def crushMinFactor (shadowStrength : ℚ) : ℚ :=
  max 0 (1 - shadowStrength / 100 * (14/10))

/-- Raw per-channel scale from the source:
`(tgtStd > 0.01) ? Math.min(SCALE_CAP, min(refStd, REF_STD_CAP) / tgtStd) : 1`
with `SCALE_CAP = 3.0` and `REF_STD_CAP = 0.18`. -/
def rawScale (refStd tgtStd : ℚ) : ℚ :=
  if 1/100 < tgtStd then min 3 (min refStd (18/100) / tgtStd) else 1

/-- The coefficient block of `processImageBuffer` (everything computed before
the pixel loop): intensity factor `k = intensity / 114`, shadow-crush floor,
capped and blended per-channel scales (`BLEND_STD = 0.95`), and offsets
damped by `BLEND_MEAN_L = BLEND_MEAN_C = 0.8`. -/
def calibrateCoeffs (refS tgtS : ColorStats) (intensity shadowStrength : ℚ) : Coeffs :=
  let k := intensity / 114
  let cmf := crushMinFactor shadowStrength
  let rawL := rawScale refS.std.1 tgtS.std.1
  let rawA := rawScale refS.std.2.1 tgtS.std.2.1
  let rawB := rawScale refS.std.2.2 tgtS.std.2.2
  let sL := 1 + (rawL - 1) * (95/100)
  let sA := 1 + (rawA - 1) * (95/100)
  let sB := 1 + (rawB - 1) * (95/100)
  { AL := 1 + (sL - 1) * k
    Aa := 1 + (sA - 1) * k
    Ab := 1 + (sB - 1) * k
    BL := (refS.mean.1 - tgtS.mean.1 * sL) * k * (8/10)
    Ba := (refS.mean.2.1 - tgtS.mean.2.1 * sA) * k * (8/10)
    Bb := (refS.mean.2.2 - tgtS.mean.2.2 * sB) * k * (8/10)
    cmf := cmf }

/-- The body of the pixel loop of `processImageBuffer`, acting on a
working-space triple: affine transform on all three channels, fixed contrast
lift `(l-0.5)*1.1+0.5`, shadow crush below lightness 0.65, and luminance
masking that interpolates the chroma channels between original and candidate
using a weight that decays above lightness 0.90 and below 0.08. -/
def applyCoeffsPixel (c : Coeffs) (p : ℚ × ℚ × ℚ) : ℚ × ℚ × ℚ :=
  let l := p.1
  let a := p.2.1
  let b := p.2.2
  let lNew1 := l * c.AL + c.BL
  let aNewRaw := a * c.Aa + c.Ba
  let bNewRaw := b * c.Ab + c.Bb
  let lNew2 := (lNew1 - 1/2) * (11/10) + 1/2
  let lNew3 :=
    if lNew2 < 13/20 then lNew2 * (c.cmf + (lNew2 / (13/20)) * (1 - c.cmf))
    else lNew2
  let weight :=
    if 9/10 < l then max 0 (1 - (l - 9/10) * 10)
    else if l < 2/25 then max 0 (l * (25/2))
    else 1
  (lNew3, a + (aNewRaw - a) * weight, b + (bNewRaw - b) * weight)

/-- `processImageBuffer` from the source: clone the buffer, precompute the
coefficients, and rewrite the three colour channels of every pixel through
working space; the alpha byte of each pixel is copied unchanged. -/
def processImageBuffer (tbl : ℤ → ℚ) (cbrtQ pw : ℚ → ℚ) (imgData : List Px)
    (refS tgtS : ColorStats) (intensity shadowStrength : ℚ) : List Px :=
  let c := calibrateCoeffs refS tgtS intensity shadowStrength
  imgData.map (fun p =>
    let lab := rgb2oklab tbl cbrtQ p.1 p.2.1 p.2.2.1
    let o := applyCoeffsPixel c lab
    let rgb := oklab2rgb pw o.1 o.2.1 o.2.2
    (rgb.1, rgb.2.1, rgb.2.2, p.2.2.2))

/-- `processImageBuffer` invoked with its `shadowStrength` argument omitted:
the JavaScript signature declares `shadowStrength: number = 50`, so the
omitted argument means 50. -/
def processImageBufferDefault (tbl : ℤ → ℚ) (cbrtQ pw : ℚ → ℚ) (imgData : List Px)
    (refS tgtS : ColorStats) (intensity : ℚ) : List Px :=
  processImageBuffer tbl cbrtQ pw imgData refS tgtS intensity 50

/-- The per-image processing step of `handleDownloadZip`: the source line is
`processImageBuffer(imgData, refStats, tgtStats, res.intensity)` — the
shadow-strength argument is omitted. -/
def handleDownloadZipItem (tbl : ℤ → ℚ) (cbrtQ pw : ℚ → ℚ)
    (refS tgtS : ColorStats) (imgData : List Px) (resIntensity : ℚ) : List Px :=
  processImageBufferDefault tbl cbrtQ pw imgData refS tgtS resIntensity

/-- One entry of the interactive results list (`ResultState` in the source):
stable id, the two slider values, and the processed preview buffer. -/
structure ResultEntry where
  rid : ℕ
  intensity : ℚ
  shadow : ℚ
  resultData : List Px
deriving DecidableEq

/-- One entry of `imageCache.current`: the resized analysis buffer and the
two statistics computed when the image entered batch processing. -/
structure CacheEntry where
  imgData : List Px
  tgtStats : ColorStats
  refStats : ColorStats
deriving DecidableEq

/-- The component state relevant to the slider handlers: number of targets,
the results list, the per-image cache, and the `errorMessage` state (the only
error channel the component has). -/
structure AppState where
  targetCount : ℕ
  results : List ResultEntry
  cache : List (ℕ × CacheEntry)
  errorMessage : Option String
deriving DecidableEq

/-- `imageCache.current[id]` lookup. -/
def lookupCache (c : List (ℕ × CacheEntry)) (id : ℕ) : Option CacheEntry :=
  (c.find? (fun e => e.1 == id)).map (fun e => e.2)

/-- The debounced body of `handleIntensityChange`: the slider value is
stored immediately; then, if the target or its cache entry is missing
(`if (!target || !imageCache.current[id]) return;`), nothing else happens —
in particular `setErrorMessage` is never called.  On a cache hit the cached
buffer is re-processed with the new intensity and the shadow value read from
the (pre-update) results list, defaulting to 50. -/
def handleIntensityChange (tbl : ℤ → ℚ) (cbrtQ pw : ℚ → ℚ)
    (st : AppState) (id : ℕ) (val : ℚ) : AppState :=
  let results1 := st.results.map (fun r => if r.rid = id then { r with intensity := val } else r)
  if id < st.targetCount then
    match lookupCache st.cache id with
    | some e =>
        let currentShadow :=
          ((st.results.find? (fun r => r.rid == id)).map (fun r => r.shadow)).getD 50
        let processed :=
          processImageBuffer tbl cbrtQ pw e.imgData e.refStats e.tgtStats val currentShadow
        { st with results :=
            results1.map (fun r => if r.rid = id then { r with resultData := processed } else r) }
    | none => { st with results := results1 }
  else { st with results := results1 }

/-- The debounced body of `handleShadowChange`, symmetric to
`handleIntensityChange`: stores the shadow value, silently returns on a
missing target or cache entry, else re-processes with the intensity read
from the (pre-update) results list, defaulting to 50. -/
def handleShadowChange (tbl : ℤ → ℚ) (cbrtQ pw : ℚ → ℚ)
    (st : AppState) (id : ℕ) (val : ℚ) : AppState :=
  let results1 := st.results.map (fun r => if r.rid = id then { r with shadow := val } else r)
  if id < st.targetCount then
    match lookupCache st.cache id with
    | some e =>
        let currentIntensity :=
          ((st.results.find? (fun r => r.rid == id)).map (fun r => r.intensity)).getD 50
        let processed :=
          processImageBuffer tbl cbrtQ pw e.imgData e.refStats e.tgtStats currentIntensity val
        { st with results :=
            results1.map (fun r => if r.rid = id then { r with resultData := processed } else r) }
    | none => { st with results := results1 }
  else { st with results := results1 }

/-- The tone curve that `processImageBuffer` applies to lightness even when
the affine coefficients are the identity: the fixed contrast lift followed by
the shadow crush. -/
def toneCurve (shadowStrength l : ℚ) : ℚ :=
  let l2 := (l - 1/2) * (11/10) + 1/2
  if l2 < 13/20 then l2 * (crushMinFactor shadowStrength + (l2 / (13/20)) * (1 - crushMinFactor shadowStrength))
  else l2

/-- Statistics value with zero mean and zero standard deviation (what
`computeStats` produces for a uniform black image). -/
def zeroStats : ColorStats := ⟨(0, 0, 0), (0, 0, 0)⟩

/-- Statistics value with lightness mean 1, zero chroma mean and zero
standard deviation (representative of a uniform white target image). -/
def whiteStats : ColorStats := ⟨(1, 0, 0), (0, 0, 0)⟩

/-- Constant-zero stand-in for the sRGB decode table, used to instantiate
theorems at concrete inputs. -/
def tblZero : ℤ → ℚ := fun _ => 0

/-- Stand-in table that is exact at index 255 (the true table has
`TABLE_sRGBToLinear[255] = 1` exactly, since `((255/255)+0.055)/1.055 = 1`). -/
def tblWhite : ℤ → ℚ := fun _ => 1

/-- Identity stand-in for a numeric primitive. -/
def idQ : ℚ → ℚ := fun x => x

/-- Clamp to [0, 1]; a computable stand-in for the gamma-encode power that
satisfies `pwSpec`. -/
def clamp01 : ℚ → ℚ := fun x => max 0 (min 1 x)

/-- Upper-bound characterisation of the gamma-encode power `x ↦ x^(1/2.4)`:
since `1/2.4 = 5/12`, for nonnegative `x` and `r`, `x^5 ≤ r^12` implies
`x^(5/12) ≤ r`.  The real function `Math.pow(·, 1/2.4)` satisfies this. -/
def pwSpec (pw : ℚ → ℚ) : Prop :=
  ∀ x r : ℚ, 0 ≤ x → 0 ≤ r → x ^ 5 ≤ r ^ 12 → pw x ≤ r

/-! ## Helper lemmas -/

/-- Rounding a value already in `[0, 255]` stays in `[0, 255]`. -/
lemma roundQ_bounds (y : ℚ) (h0 : 0 ≤ y) (h255 : y ≤ 255) :
    0 ≤ roundQ y ∧ roundQ y ≤ 255 := by
  unfold roundQ
  constructor
  · exact Int.floor_nonneg.mpr (by linarith)
  · have h : ⌊y + 1/2⌋ < (256 : ℤ) := Int.floor_lt.mpr (by push_cast; linarith)
    omega

/-- Every output of `linearToSRGB` lies in `[0, 255]`, for every gamma-encode
primitive `pw` and every input: the clamp `min(255, max(0, ·))` happens
before rounding. -/
lemma linearToSRGB_bounds (pw : ℚ → ℚ) (x : ℚ) :
    0 ≤ linearToSRGB pw x ∧ linearToSRGB pw x ≤ 255 := by
  unfold linearToSRGB
  exact roundQ_bounds _ (le_min (by norm_num) (le_max_left _ _)) (min_le_left _ _)

/-- Population variance is nonnegative. -/
lemma chanVar_nonneg (xs : List ℚ) : 0 ≤ chanVar xs := by
  unfold chanVar
  apply div_nonneg
  · apply List.sum_nonneg
    intro x hx
    obtain ⟨c, _, rfl⟩ := List.mem_map.mp hx
    positivity
  · exact_mod_cast Nat.zero_le _

/-- With intensity 0 the calibrated affine coefficients are the identity. -/
lemma calibrateCoeffs_zero (refS tgtS : ColorStats) (s : ℚ) :
    calibrateCoeffs refS tgtS 0 s =
      { AL := 1, Aa := 1, Ab := 1, BL := 0, Ba := 0, Bb := 0, cmf := crushMinFactor s } := by
  simp [calibrateCoeffs]

/-- With zero statistics on both sides the calibrated coefficients are the
identity for every intensity (the scales are 1, the means are 0). -/
lemma calibrateCoeffs_zeroStats (i s : ℚ) :
    calibrateCoeffs zeroStats zeroStats i s =
      { AL := 1, Aa := 1, Ab := 1, BL := 0, Ba := 0, Bb := 0, cmf := crushMinFactor s } := by
  simp [calibrateCoeffs, rawScale, zeroStats]
  norm_num

/-- The shadow-crush floor equals its default value 0.3 only at
`shadowStrength = 50` (within the slider range). -/
lemma crushMinFactor_ne (s : ℚ) (h50 : s ≠ 50) :
    crushMinFactor s ≠ 3/10 := by
  unfold crushMinFactor
  rcases le_total (1 - s / 100 * (14/10)) 0 with hle | hge
  · rw [max_eq_left hle]; norm_num
  · rw [max_eq_right hge]
    intro heq
    exact h50 (by linarith)

/-! ## Claim theorems -/

/-- C1 counterexample: with intensity 0 (and shadow strength at its default
50) the transform does not leave a pixel unchanged — the working-space point
with lightness 0.2 and zero chroma is moved to lightness 2669/32500 ≈ 0.082
by the unconditional contrast lift and shadow crush, for any statistics
(zero statistics shown). -/
theorem c1_counterexample :
    applyCoeffsPixel (calibrateCoeffs zeroStats zeroStats 0 50) (1/5, 0, 0) ≠ (1/5, 0, 0) := by
  norm_num [applyCoeffsPixel, calibrateCoeffs, crushMinFactor, rawScale, zeroStats,
    Prod.ext_iff]

/-- C1 (amended): at intensity 0 the calibrated affine coefficients are the
identity (scale 1, offset 0) and both chroma channels are returned unchanged,
but lightness is still passed through the fixed tone curve (contrast lift
followed by the shadow crush), so the transform is not the identity on
pixels. -/
theorem c1_zero_intensity (refS tgtS : ColorStats) (s l a b : ℚ) :
    applyCoeffsPixel (calibrateCoeffs refS tgtS 0 s) (l, a, b) = (toneCurve s l, a, b) ∧
    (calibrateCoeffs refS tgtS 0 s).AL = 1 ∧ (calibrateCoeffs refS tgtS 0 s).BL = 0 ∧
    (calibrateCoeffs refS tgtS 0 s).Aa = 1 ∧ (calibrateCoeffs refS tgtS 0 s).Ba = 0 ∧
    (calibrateCoeffs refS tgtS 0 s).Ab = 1 ∧ (calibrateCoeffs refS tgtS 0 s).Bb = 0 := by
  rw [calibrateCoeffs_zero]
  refine ⟨?_, rfl, rfl, rfl, rfl, rfl, rfl⟩
  simp [applyCoeffsPixel, toneCurve]

/-- C4 counterexample: with reference standard deviation 0 and target
standard deviation 1 the raw scale is 0, strictly below the claimed lower
bound 1/3 — no lower clamp exists in the code. -/
theorem c4_counterexample : rawScale 0 1 = 0 ∧ rawScale 0 1 < 1/3 := by
  norm_num [rawScale, min_def]

/-- C4 (amended): the raw per-channel scale equals
`min(3, min(refStd, 0.18) / tgtStd)` when `tgtStd > 0.01` and `1` otherwise;
only the upper bound 3 is enforced — the scale is merely nonnegative (for
nonnegative reference deviation) and can be arbitrarily close to 0. -/
theorem c4_scale_caps (refStd tgtStd : ℚ) (h : 0 ≤ refStd) :
    rawScale refStd tgtStd ≤ 3 ∧ 0 ≤ rawScale refStd tgtStd ∧
    (1/100 < tgtStd → rawScale refStd tgtStd = min 3 (min refStd (18/100) / tgtStd)) ∧
    (tgtStd ≤ 1/100 → rawScale refStd tgtStd = 1) := by
  unfold rawScale
  split_ifs with h1
  · refine ⟨min_le_left _ _, ?_, fun _ => rfl, fun h2 => absurd h1 (not_lt.mpr h2)⟩
    exact le_min (by norm_num) (div_nonneg (le_min h (by norm_num)) (by linarith))
  · exact ⟨by norm_num, by norm_num, fun h2 => absurd h2 h1, fun _ => rfl⟩

/-- C4 witness: the amended statement at reference deviation 1/2 and target
deviation 1 (here the raw scale is 0.18, the capped reference deviation). -/
theorem c4_witness :
    rawScale (1/2) 1 ≤ 3 ∧ 0 ≤ rawScale (1/2) 1 ∧
    (1/100 < (1:ℚ) → rawScale (1/2) 1 = min 3 (min (1/2) (18/100) / 1)) ∧
    ((1:ℚ) ≤ 1/100 → rawScale (1/2) 1 = 1) :=
  c4_scale_caps (1/2) 1 (by norm_num)

/-- C5 counterexample: the Oklab revision's extractor has no
`exclude_extremes` parameter and never excludes extreme pixels — on an image
consisting of one pure-white pixel it returns that pixel's statistics, while
the spec's contract with the flag set excludes it and returns the sentinel. -/
theorem c5_counterexample :
    computeStats tblWhite idQ idQ [(255, 255, 255, 255)] ≠
      extractSpec (oklabOfPx tblWhite idQ) idQ true [(255, 255, 255, 255)] := by
  norm_num [computeStats, extractSpec, statsFromLabs, oklabOfPx, rgb2oklab, tblWhite,
    idQ, chanMean, chanVar, isExtremePx, ColorStats.mk.injEq, Prod.ext_iff]

/-- C5 (amended): neither revision takes an `exclude_extremes` parameter.
The Oklab revision's `computeStats` always uses the full, unfiltered pixel
population (it coincides with the spec's contract with the flag fixed to
false); the older revision's `computeStats` applies the extreme-pixel
exclusion unconditionally (the contract with the flag fixed to true). -/
theorem c5_no_flag (tbl : ℤ → ℚ) (cbrtQ sq : ℚ → ℚ) (lab : Px → ℚ × ℚ × ℚ)
    (data : List Px) :
    computeStats tbl cbrtQ sq data = extractSpec (oklabOfPx tbl cbrtQ) sq false data ∧
    computeStatsTsx lab sq data = extractSpec lab sq true data :=
  ⟨rfl, rfl⟩

/-- C6: the statistics extractor is total (the model is a total function);
on an image with zero sampled pixels it returns exactly the sentinel
`mean = [0,0,0]`, `std = [1,1,1]` (in this revision no pixel is ever
excluded, so the degenerate case is the empty buffer), and on a non-empty
buffer every standard-deviation entry is the square root of a nonnegative
variance. -/
theorem c6_sentinel (tbl : ℤ → ℚ) (cbrtQ sq : ℚ → ℚ) (data : List Px)
    (hd : data ≠ []) :
    computeStats tbl cbrtQ sq [] = ⟨(0, 0, 0), (1, 1, 1)⟩ ∧
    0 ≤ chanVar ((data.map (oklabOfPx tbl cbrtQ)).map (fun t => t.1)) ∧
    0 ≤ chanVar ((data.map (oklabOfPx tbl cbrtQ)).map (fun t => t.2.1)) ∧
    0 ≤ chanVar ((data.map (oklabOfPx tbl cbrtQ)).map (fun t => t.2.2)) ∧
    computeStats tbl cbrtQ sq data =
      ⟨(chanMean ((data.map (oklabOfPx tbl cbrtQ)).map (fun t => t.1)),
        chanMean ((data.map (oklabOfPx tbl cbrtQ)).map (fun t => t.2.1)),
        chanMean ((data.map (oklabOfPx tbl cbrtQ)).map (fun t => t.2.2))),
       (sq (chanVar ((data.map (oklabOfPx tbl cbrtQ)).map (fun t => t.1))),
        sq (chanVar ((data.map (oklabOfPx tbl cbrtQ)).map (fun t => t.2.1))),
        sq (chanVar ((data.map (oklabOfPx tbl cbrtQ)).map (fun t => t.2.2))))⟩ := by
  refine ⟨rfl, chanVar_nonneg _, chanVar_nonneg _, chanVar_nonneg _, ?_⟩
  unfold computeStats statsFromLabs
  rw [if_neg]
  simpa using hd

/-- C6 witness: the sentinel and validity statement instantiated at a
one-pixel black image with concrete primitive stand-ins. -/
theorem c6_witness :
    computeStats tblZero idQ idQ [] = ⟨(0, 0, 0), (1, 1, 1)⟩ ∧
    0 ≤ chanVar ((([((0:ℤ), (0:ℤ), (0:ℤ), (0:ℤ))]).map (oklabOfPx tblZero idQ)).map (fun t => t.1)) ∧
    0 ≤ chanVar ((([((0:ℤ), (0:ℤ), (0:ℤ), (0:ℤ))]).map (oklabOfPx tblZero idQ)).map (fun t => t.2.1)) ∧
    0 ≤ chanVar ((([((0:ℤ), (0:ℤ), (0:ℤ), (0:ℤ))]).map (oklabOfPx tblZero idQ)).map (fun t => t.2.2)) ∧
    computeStats tblZero idQ idQ [((0:ℤ), (0:ℤ), (0:ℤ), (0:ℤ))] =
      ⟨(chanMean ((([((0:ℤ), (0:ℤ), (0:ℤ), (0:ℤ))]).map (oklabOfPx tblZero idQ)).map (fun t => t.1)),
        chanMean ((([((0:ℤ), (0:ℤ), (0:ℤ), (0:ℤ))]).map (oklabOfPx tblZero idQ)).map (fun t => t.2.1)),
        chanMean ((([((0:ℤ), (0:ℤ), (0:ℤ), (0:ℤ))]).map (oklabOfPx tblZero idQ)).map (fun t => t.2.2))),
       (idQ (chanVar ((([((0:ℤ), (0:ℤ), (0:ℤ), (0:ℤ))]).map (oklabOfPx tblZero idQ)).map (fun t => t.1))),
        idQ (chanVar ((([((0:ℤ), (0:ℤ), (0:ℤ), (0:ℤ))]).map (oklabOfPx tblZero idQ)).map (fun t => t.2.1))),
        idQ (chanVar ((([((0:ℤ), (0:ℤ), (0:ℤ), (0:ℤ))]).map (oklabOfPx tblZero idQ)).map (fun t => t.2.2))))⟩ :=
  c6_sentinel tblZero idQ idQ [((0:ℤ), (0:ℤ), (0:ℤ), (0:ℤ))] (by simp)

/-- C8: the pixel transform is a pure function from buffer to buffer (the
input list is never written); the output has exactly as many pixels as the
input and the alpha byte of every pixel is passed through unchanged. -/
theorem c8_frame (tbl : ℤ → ℚ) (cbrtQ pw : ℚ → ℚ) (imgData : List Px)
    (refS tgtS : ColorStats) (i s : ℚ) :
    (processImageBuffer tbl cbrtQ pw imgData refS tgtS i s).length = imgData.length ∧
    (processImageBuffer tbl cbrtQ pw imgData refS tgtS i s).map (fun p => p.2.2.2) =
      imgData.map (fun p => p.2.2.2) := by
  constructor
  · simp [processImageBuffer]
  · simp only [processImageBuffer, List.map_map]
    rfl

/-- C7: boundary safety — for every input buffer (all-black, all-white,
single-colour or otherwise), every statistics pair, every parameter pair and
every gamma-encode primitive, each colour channel of every output pixel of
the transform lies in `[0, 255]`; the model is total rational arithmetic, so
no undefined value arises. -/
theorem c7_boundary (tbl : ℤ → ℚ) (cbrtQ pw : ℚ → ℚ) (imgData : List Px)
    (refS tgtS : ColorStats) (i s : ℚ) (p : Px)
    (hp : p ∈ processImageBuffer tbl cbrtQ pw imgData refS tgtS i s) :
    (0 ≤ p.1 ∧ p.1 ≤ 255) ∧ (0 ≤ p.2.1 ∧ p.2.1 ≤ 255) ∧
    (0 ≤ p.2.2.1 ∧ p.2.2.1 ≤ 255) := by
  unfold processImageBuffer at hp
  obtain ⟨q, _, rfl⟩ := List.mem_map.mp hp
  exact ⟨linearToSRGB_bounds _ _, linearToSRGB_bounds _ _, linearToSRGB_bounds _ _⟩

/-- C7 witness: the bound instantiated on the output pixel produced from a
one-pixel black image with concrete primitive stand-ins. -/
theorem c7_witness :
    (0 ≤ (((0:ℤ), (0:ℤ), (0:ℤ), (7:ℤ)) : Px).1 ∧ (((0:ℤ), (0:ℤ), (0:ℤ), (7:ℤ)) : Px).1 ≤ 255) ∧
    (0 ≤ (((0:ℤ), (0:ℤ), (0:ℤ), (7:ℤ)) : Px).2.1 ∧ (((0:ℤ), (0:ℤ), (0:ℤ), (7:ℤ)) : Px).2.1 ≤ 255) ∧
    (0 ≤ (((0:ℤ), (0:ℤ), (0:ℤ), (7:ℤ)) : Px).2.2.1 ∧ (((0:ℤ), (0:ℤ), (0:ℤ), (7:ℤ)) : Px).2.2.1 ≤ 255) :=
  c7_boundary tblZero idQ idQ [((0:ℤ), (0:ℤ), (0:ℤ), (7:ℤ))] zeroStats zeroStats 0 0
    ((0:ℤ), (0:ℤ), (0:ℤ), (7:ℤ))
    (by
      have h1 : rgb2oklab tblZero idQ 0 0 0 = (0, 0, 0) := by
        norm_num [rgb2oklab, tblZero, idQ]
      have h2 : applyCoeffsPixel (calibrateCoeffs zeroStats zeroStats 0 0) (0 : ℚ × ℚ × ℚ) =
          (-1/20, 0, 0) := by
        norm_num [applyCoeffsPixel, calibrateCoeffs, crushMinFactor, rawScale, zeroStats,
          Prod.fst_zero, Prod.snd_zero]
      have h3 : oklab2rgb idQ (-1/20) 0 0 = (0, 0, 0) := by
        norm_num [oklab2rgb, linearToSRGB, roundQ, idQ]
      simp [processImageBuffer, h1, h2, h3])

/-- Concrete component state for the cache-miss scenario: one target, one
result entry, an empty cache (identifier 0 was never submitted to batch
processing), and no pending error message. -/
def c9State : AppState :=
  { targetCount := 1
    results := [{ rid := 0, intensity := 50, shadow := 50, resultData := [] }]
    cache := []
    errorMessage := none }

/-- C9 counterexample: invoking either slider handler for an identifier with
no cache entry signals nothing — the error channel stays `none` (the code
path is `if (!target || !imageCache.current[id]) return;`, a silent return,
not an error). -/
theorem c9_counterexample :
    lookupCache c9State.cache 0 = none ∧
    (handleIntensityChange tblZero idQ idQ c9State 0 80).errorMessage = none ∧
    (handleShadowChange tblZero idQ idQ c9State 0 80).errorMessage = none := by
  refine ⟨rfl, ?_, ?_⟩ <;>
    norm_num [handleIntensityChange, handleShadowChange, lookupCache, c9State]

/-- C9 (amended): on a cache miss both slider handlers perform a silent
no-op apart from storing the new slider value — no reprocessing happens, the
cache, target count and error message are left untouched, and no error is
signalled to the caller. -/
theorem c9_silent_miss (tbl : ℤ → ℚ) (cbrtQ pw : ℚ → ℚ) (st : AppState)
    (id : ℕ) (val : ℚ) (h : lookupCache st.cache id = none) :
    handleIntensityChange tbl cbrtQ pw st id val =
      { st with results :=
          st.results.map (fun r => if r.rid = id then { r with intensity := val } else r) } ∧
    handleShadowChange tbl cbrtQ pw st id val =
      { st with results :=
          st.results.map (fun r => if r.rid = id then { r with shadow := val } else r) } := by
  refine ⟨?_, ?_⟩
  · unfold handleIntensityChange
    by_cases hid : id < st.targetCount <;> simp [hid, h]
  · unfold handleShadowChange
    by_cases hid : id < st.targetCount <;> simp [hid, h]

/-- C9 witness: the amended statement at the concrete cache-miss state. -/
theorem c9_witness :
    handleIntensityChange tblZero idQ idQ c9State 0 80 =
      { c9State with results :=
          c9State.results.map (fun r => if r.rid = 0 then { r with intensity := 80 } else r) } ∧
    handleShadowChange tblZero idQ idQ c9State 0 80 =
      { c9State with results :=
          c9State.results.map (fun r => if r.rid = 0 then { r with shadow := 80 } else r) } :=
  c9_silent_miss tblZero idQ idQ c9State 0 80 rfl

/-- C10: the full-resolution ZIP export path re-processes each image with the
user's current intensity but calls `processImageBuffer` without the
shadow-strength argument, so the default 50 is used; and for every shadow
value other than 50 in the slider range the resulting transform differs from
the previewed one — exhibited on the working-space point with lightness 0.3,
where the two shadow-crush curves give different outputs for any statistics
pair with zero deviations and equal means (zero statistics shown) at the
same intensity. -/
theorem c10_zip_default_shadow (tbl : ℤ → ℚ) (cbrtQ pw : ℚ → ℚ)
    (refS tgtS : ColorStats) (imgData : List Px) (i : ℚ) (s : ℚ)
    (h0 : 0 ≤ s) (h100 : s ≤ 100) (h50 : s ≠ 50) :
    handleDownloadZipItem tbl cbrtQ pw refS tgtS imgData i =
      processImageBuffer tbl cbrtQ pw imgData refS tgtS i 50 ∧
    applyCoeffsPixel (calibrateCoeffs zeroStats zeroStats i s) (3/10, 0, 0) ≠
      applyCoeffsPixel (calibrateCoeffs zeroStats zeroStats i 50) (3/10, 0, 0) := by
  refine ⟨rfl, ?_⟩
  rw [calibrateCoeffs_zeroStats, calibrateCoeffs_zeroStats]
  intro heq
  have h1 := congrArg Prod.fst heq
  simp only [applyCoeffsPixel] at h1
  norm_num [crushMinFactor] at h1
  exact crushMinFactor_ne s h50 (by unfold crushMinFactor; linarith)

/-- C10 witness: the statement at shadow strength 100 with concrete
primitive stand-ins and an empty buffer. -/
theorem c10_witness :
    handleDownloadZipItem tblZero idQ idQ zeroStats zeroStats [] 50 =
      processImageBuffer tblZero idQ idQ [] zeroStats zeroStats 50 50 ∧
    applyCoeffsPixel (calibrateCoeffs zeroStats zeroStats 50 100) (3/10, 0, 0) ≠
      applyCoeffsPixel (calibrateCoeffs zeroStats zeroStats 50 50) (3/10, 0, 0) :=
  c10_zip_default_shadow tblZero idQ idQ zeroStats zeroStats [] 50 100
    (by norm_num) (by norm_num) (by norm_num)

/-- The clamp to `[0, 1]` satisfies the upper-bound characterisation of the
gamma-encode power. -/
lemma pwSpec_clamp01 : pwSpec clamp01 := by
  intro x r hx hr h
  unfold clamp01
  rcases le_total r 1 with hr1 | hr1
  · have h5 : x ^ 5 ≤ r ^ 5 := le_trans h (pow_le_pow_of_le_one hr hr1 (by norm_num))
    have hxr : x ≤ r := le_of_pow_le_pow_left₀ (by norm_num) hr h5
    exact max_le hr (le_trans (min_le_right _ _) hxr)
  · exact max_le (le_trans zero_le_one hr1) (le_trans (min_le_left _ _) hr1)

/-- If the linear-light input lies in `(0.0031308, 0.00502]`, the encoded
8-bit value is at most 18, for every gamma-encode primitive satisfying
`pwSpec` (since `0.00502^5 ≤ 0.12^12`, the encoded intensity is at most
`1.055·0.12 − 0.055`). -/
lemma linearToSRGB_le_18 (pw : ℚ → ℚ) (hpw : pwSpec pw) (x : ℚ)
    (hlo : 31308/10000000 < x) (hhi : x ≤ 502/100000) :
    linearToSRGB pw x ≤ 18 := by
  have hxpos : (0:ℚ) ≤ x := by linarith
  have hpw12 : pw x ≤ 12/100 := by
    refine hpw x (12/100) hxpos (by norm_num) ?_
    calc x ^ 5 ≤ (502/100000) ^ 5 := pow_le_pow_left₀ hxpos hhi 5
      _ ≤ (12/100) ^ 12 := by norm_num
  show roundQ (min 255 (max 0 ((if x ≤ 0.0031308 then x * 12.92
      else 1.055 * pw x - 0.055) * 255))) ≤ 18
  rw [if_neg (by linarith)]
  unfold roundQ
  have hval : (1.055 * pw x - 0.055) * 255 ≤ 18258/1000 := by linarith
  have hmin : min 255 (max 0 ((1.055 * pw x - 0.055) * 255)) ≤ 18258/1000 :=
    le_trans (min_le_right _ _) (max_le (by norm_num) hval)
  have hfl : ⌊min 255 (max 0 ((1.055 * pw x - 0.055) * 255)) + 1/2⌋ < (19:ℤ) := by
    refine Int.floor_lt.mpr ?_
    push_cast
    linarith
  omega

/-- Monotone bounds for cubing on a nonnegative interval. -/
lemma cube_bounds {lo hi x : ℚ} (h0 : 0 ≤ lo) (hl : lo ≤ x) (hh : x ≤ hi) :
    lo * lo * lo ≤ x * x * x ∧ x * x * x ≤ hi * hi * hi := by
  have hx : 0 ≤ x := le_trans h0 hl
  have hhi : 0 ≤ hi := le_trans hx hh
  constructor
  · nlinarith [mul_nonneg h0 h0, mul_nonneg hx hx, mul_nonneg h0 hx]
  · nlinarith [mul_nonneg hx hx, mul_nonneg hhi hhi, mul_nonneg hx hhi]

/-- For a working-space colour with lightness in `[0.1657, 0.1668]` and
near-zero chroma, the red channel produced by `oklab2rgb` is at most 18 (far
from 255), for every gamma-encode primitive satisfying `pwSpec`. -/
lemma oklab2rgb_red_dark (pw : ℚ → ℚ) (hpw : pwSpec pw) (L a b : ℚ)
    (hL1 : 1657/10000 ≤ L) (hL2 : L ≤ 1668/10000)
    (ha : |a| ≤ 1/1000000) (hb : |b| ≤ 1/1000000) :
    (oklab2rgb pw L a b).1 ≤ 18 := by
  obtain ⟨ha1, ha2⟩ := abs_le.mp ha
  obtain ⟨hb1, hb2⟩ := abs_le.mp hb
  have hl1lo : 16569/100000 ≤ L + 0.3963377774 * a + 0.2158037573 * b := by linarith
  have hl1hi : L + 0.3963377774 * a + 0.2158037573 * b ≤ 16681/100000 := by linarith
  have hm1lo : 16569/100000 ≤ L - 0.1055613458 * a - 0.0638541728 * b := by linarith
  have hm1hi : L - 0.1055613458 * a - 0.0638541728 * b ≤ 16681/100000 := by linarith
  have hs1lo : 16569/100000 ≤ L - 0.0894841775 * a - 1.2914855480 * b := by linarith
  have hs1hi : L - 0.0894841775 * a - 1.2914855480 * b ≤ 16681/100000 := by linarith
  obtain ⟨hcl1, hcl2⟩ := cube_bounds (by norm_num) hl1lo hl1hi
  obtain ⟨hcm1, hcm2⟩ := cube_bounds (by norm_num) hm1lo hm1hi
  obtain ⟨hcs1, hcs2⟩ := cube_bounds (by norm_num) hs1lo hs1hi
  show linearToSRGB pw
      (4.0767416621 * ((L + 0.3963377774 * a + 0.2158037573 * b) *
          (L + 0.3963377774 * a + 0.2158037573 * b) * (L + 0.3963377774 * a + 0.2158037573 * b)) -
        3.3077115913 * ((L - 0.1055613458 * a - 0.0638541728 * b) *
          (L - 0.1055613458 * a - 0.0638541728 * b) * (L - 0.1055613458 * a - 0.0638541728 * b)) +
        0.2309699292 * ((L - 0.0894841775 * a - 1.2914855480 * b) *
          (L - 0.0894841775 * a - 1.2914855480 * b) * (L - 0.0894841775 * a - 1.2914855480 * b))) ≤ 18
  exact linearToSRGB_le_18 pw hpw _ (by linarith) (by linarith)

/-- The pixel transform at the concrete calibration used for the highlight
scenario (all-black reference, all-white target, intensity 100, shadow 50):
for near-white lightness the crush branch and the highlight-weight branch are
taken, the chroma channels pass through exactly, and the lightness follows
the crushed, lifted affine value. -/
lemma applyCoeffs_c2_eval (l a b : ℚ) (hl1 : l ≤ 1) :
    applyCoeffsPixel ⟨1, 1, 1, -40/57, 0, 0, 3/10⟩ (l, a, b) =
      (((l - 40/57 - 1/2) * (11/10) + 1/2) *
        (3/10 + (((l - 40/57 - 1/2) * (11/10) + 1/2) / (13/20)) * (7/10)), a, b) := by
  unfold applyCoeffsPixel
  simp only [Prod.mk.injEq]
  split_ifs <;>
    first
      | (refine ⟨?_, ?_, ?_⟩ <;> ring1)
      | (exfalso; linarith)

/-- C2 counterexample: a display-white pixel (255,255,255) is not mapped to
(255,255,255) for every statistics pair — with an all-black reference
(zero statistics), an all-white target (lightness mean 1, zero deviations),
intensity 100 and shadow strength 50, the white pixel comes out black.  The
primitive stand-ins are exact where exactness matters: the true lookup table
has value exactly 1 at index 255 (`tblWhite`), and the cube root is applied
to 1, 1 and 0.9999999999, where the identity stand-in differs from the true
cube root by less than 7·10⁻¹¹ — `c2_highlight_masking` shows the same
conclusion for every working-space value in a bracket containing the true
one and every gamma-encode primitive satisfying `pwSpec`. -/
theorem c2_counterexample :
    processImageBuffer tblWhite idQ idQ [((255:ℤ), 255, 255, 255)] zeroStats whiteStats 100 50 ≠
      [((255:ℤ), 255, 255, 255)] := by
  have h1 : rgb2oklab tblWhite idQ 255 255 255 =
      (1999999986841276443/2000000000000000000, 485718441/2000000000000000000,
       1861086141169/50000000000000000000) := by
    norm_num [rgb2oklab, tblWhite, idQ]
  have hc : calibrateCoeffs zeroStats whiteStats 100 50 =
      ⟨1, 1, 1, -40/57, 0, 0, 3/10⟩ := by
    norm_num [calibrateCoeffs, crushMinFactor, rawScale, zeroStats, whiteStats]
  have h2 : applyCoeffsPixel (⟨1, 1, 1, -40/57, 0, 0, 3/10⟩ : Coeffs)
      (1999999986841276443/2000000000000000000, 485718441/2000000000000000000,
       1861086141169/50000000000000000000) =
      (1408113945043288953035544803004601116219847/8447400000000000000000000000000000000000000,
       485718441/2000000000000000000, 1861086141169/50000000000000000000) := by
    norm_num [applyCoeffsPixel, max_def, min_def]
  have h3 : oklab2rgb idQ
      (1408113945043288953035544803004601116219847/8447400000000000000000000000000000000000000)
      (485718441/2000000000000000000) (1861086141169/50000000000000000000) =
      ((0:ℤ), 0, 0) := by
    norm_num [oklab2rgb, linearToSRGB, roundQ, idQ, max_def, min_def]
  simp [processImageBuffer, hc, h1, h2, h3]

/-- C2 (amended): the luminance mask protects only chroma, not lightness.
With the calibration of the highlight scenario (all-black reference
statistics, all-white target statistics, intensity 100, shadow strength 50),
every working-space input in a bracket containing display white (lightness
within [0.999, 1], chroma within 10⁻⁶ of zero — the true white point has
lightness ≈ 0.9999999935 and chroma below 4·10⁻⁸) keeps its chroma exactly,
but its lightness is pulled down below 0.17 by the affine shift, contrast
lift and shadow crush, and the resulting red channel is at most 18 for every
gamma-encode primitive satisfying `pwSpec` — so the output is far from
(255,255,255). -/
theorem c2_highlight_masking (pw : ℚ → ℚ) (hpw : pwSpec pw) (l a b : ℚ)
    (hl : 999/1000 ≤ l) (hl1 : l ≤ 1) (ha : |a| ≤ 1/1000000) (hb : |b| ≤ 1/1000000) :
    (applyCoeffsPixel (calibrateCoeffs zeroStats whiteStats 100 50) (l, a, b)).2.1 = a ∧
    (applyCoeffsPixel (calibrateCoeffs zeroStats whiteStats 100 50) (l, a, b)).2.2 = b ∧
    (applyCoeffsPixel (calibrateCoeffs zeroStats whiteStats 100 50) (l, a, b)).1 ≤ 17/100 ∧
    (oklab2rgb pw (applyCoeffsPixel (calibrateCoeffs zeroStats whiteStats 100 50) (l, a, b)).1
      (applyCoeffsPixel (calibrateCoeffs zeroStats whiteStats 100 50) (l, a, b)).2.1
      (applyCoeffsPixel (calibrateCoeffs zeroStats whiteStats 100 50) (l, a, b)).2.2).1 ≤ 18 := by
  have hc : calibrateCoeffs zeroStats whiteStats 100 50 =
      ⟨1, 1, 1, -40/57, 0, 0, 3/10⟩ := by
    norm_num [calibrateCoeffs, crushMinFactor, rawScale, zeroStats, whiteStats]
  rw [hc, applyCoeffs_c2_eval l a b hl1]
  have haux1 : 0 ≤ 3/10 + ((((1:ℚ) - 40/57 - 1/2) * (11/10) + 1/2) / (13/20)) * (7/10) +
      (((l - 40/57 - 1/2) * (11/10) + 1/2) / (13/20)) * (7/10) := by linarith
  have haux2 : 0 ≤ (1:ℚ) - l := by linarith
  have haux3 : 0 ≤ l - 999/1000 := by linarith
  have hLhi : ((l - 40/57 - 1/2) * (11/10) + 1/2) *
      (3/10 + (((l - 40/57 - 1/2) * (11/10) + 1/2) / (13/20)) * (7/10)) ≤ 1668/10000 := by
    nlinarith [mul_nonneg haux2 haux1]
  have hLlo : 1657/10000 ≤ ((l - 40/57 - 1/2) * (11/10) + 1/2) *
      (3/10 + (((l - 40/57 - 1/2) * (11/10) + 1/2) / (13/20)) * (7/10)) := by
    nlinarith [mul_nonneg haux3 haux1]
  exact ⟨rfl, rfl, by linarith,
    oklab2rgb_red_dark pw hpw _ a b hLlo hLhi ha hb⟩

/-- C2 witness: the amended statement at the clamp stand-in for the encode
power and the exact upper edge of the white bracket. -/
theorem c2_witness :
    (applyCoeffsPixel (calibrateCoeffs zeroStats whiteStats 100 50) (1, 0, 0)).2.1 = 0 ∧
    (applyCoeffsPixel (calibrateCoeffs zeroStats whiteStats 100 50) (1, 0, 0)).2.2 = 0 ∧
    (applyCoeffsPixel (calibrateCoeffs zeroStats whiteStats 100 50) (1, 0, 0)).1 ≤ 17/100 ∧
    (oklab2rgb clamp01 (applyCoeffsPixel (calibrateCoeffs zeroStats whiteStats 100 50) (1, 0, 0)).1
      (applyCoeffsPixel (calibrateCoeffs zeroStats whiteStats 100 50) (1, 0, 0)).2.1
      (applyCoeffsPixel (calibrateCoeffs zeroStats whiteStats 100 50) (1, 0, 0)).2.2).1 ≤ 18 :=
  c2_highlight_masking clamp01 pwSpec_clamp01 1 0 0 (by norm_num) (by norm_num)
    (by norm_num) (by norm_num)
